import Mathlib

/-!
Shallow embedding of the motion-tracking / collision core of the
fruit-slicing camera game (`src/components/FruitGame.tsx`).

Conventions of the embedding:
* JavaScript numbers are modelled as exact rationals (`ℚ`); timestamps
  (`performance.now()` tick time and `Date.now()` wall clock) as `ℤ`
  milliseconds.
* `Math.random()` draws are passed in as explicit tick inputs (an
  adversarial randomness oracle), making every tick a pure function.
* `Math.sqrt(d) < 12` is embedded as the equivalent `d < 144`
  (`Real.sqrt` is monotone and `12` squared is exact), keeping the
  collision predicate computable.
* `Math.hypot`, used only to pick the smoothing strength of the hand
  tracker, is kept as an abstract parameter `hyp`; no claim depends on
  its value.
-/

namespace FruitGame

/-- RGB triple of one downsampled pixel (alpha is ignored by the diff loop). -/
structure Pixel where
  r : ℕ
  g : ℕ
  b : ℕ
deriving DecidableEq, Repr

/-- A downsampled video frame: `GRID_X * GRID_Y` pixels in row-major order,
mirroring `ctx.getImageData(0, 0, GRID_X, GRID_Y).data`. -/
abbrev Frame := List Pixel

/-- A point in percentage game space, like `handPosRef.current`. -/
structure Point where
  x : ℚ
  y : ℚ
deriving DecidableEq, Repr

/-- Object kind: the source field `type`, a union of the tags fruit and bomb. -/
inductive ObjType where
  | fruit
  | bomb
deriving DecidableEq, Repr

/-- Source `interface GameObject`. -/
structure GameObject where
  id : ℤ
  type : ObjType
  emoji : String
  x : ℚ
  y : ℚ
  velocity : ℚ
  isSliced : Bool
  slicedAt : Option ℤ := none
deriving DecidableEq, Repr

/-- Source `interface Particle`. -/
structure Particle where
  id : ℚ
  x : ℚ
  y : ℚ
  vx : ℚ
  vy : ℚ
  life : ℚ
  color : String
deriving DecidableEq, Repr

/-- One entry of the `floatingTexts` state list. -/
structure FloatingText where
  id : ℚ
  x : ℚ
  y : ℚ
  text : String
  color : String
deriving DecidableEq, Repr

/-- Source constant `MOTION_THRESHOLD = 25`. -/
def MOTION_THRESHOLD : ℕ := 25

/-- Source constant `GRID_X = 64`. -/
def GRID_X : ℕ := 64

/-- Source constant `GRID_Y = 48`. -/
def GRID_Y : ℕ := 48

/-- Source constant `COLLISION_DISTANCE = 12`. -/
def COLLISION_DISTANCE : ℚ := 12

/-- Source `ITEMS` table (five fruit variants then the bomb). -/
def ITEMS : List (ObjType × String) :=
  [(ObjType.fruit, "🍎"), (ObjType.fruit, "🍌"), (ObjType.fruit, "🍉"),
   (ObjType.fruit, "🍇"), (ObjType.fruit, "🍊"), (ObjType.bomb, "💣")]

/-- Summed absolute RGB channel difference of one downsampled pixel
(`rDiff + gDiff + bDiff` in the diff loop). -/
def pixelDiff (p q : Pixel) : ℕ :=
  ((p.r : ℤ) - q.r).natAbs + ((p.g : ℤ) - q.g).natAbs + ((p.b : ℤ) - q.b).natAbs

/-- `handednessBias = 1 + Math.pow(1 - x / GRID_X, 2) * 3` for a grid column `x`
(the square written as an explicit product). -/
def handednessBias (x : ℕ) : ℚ :=
  1 + (1 - (x : ℚ) / (GRID_X : ℚ)) * (1 - (x : ℚ) / (GRID_X : ℚ)) * 3

/-- One iteration of the differencing loop: fold the contribution of pixel
index `i` (current pixel paired with previous pixel) into
`(sumX, sumY, totalWeight)`. -/
def motionAccum (acc : ℚ × ℚ × ℚ) (ip : ℕ × (Pixel × Pixel)) : ℚ × ℚ × ℚ :=
  let i := ip.1
  let cur := ip.2.1
  let prev := ip.2.2
  let diff := pixelDiff cur prev
  if MOTION_THRESHOLD < diff then
    let x := i % GRID_X
    let y := i / GRID_X
    let w := (diff : ℚ) * handednessBias x
    (acc.1 + (x : ℚ) * w, acc.2.1 + (y : ℚ) * w, acc.2.2 + w)
  else
    acc

/-- The whole differencing loop of section 2 of `gameLoop`: weighted motion
centroid sums `(sumX, sumY, totalWeight)` of the current frame against the
previous frame. -/
def motionSums (prevF cur : Frame) : ℚ × ℚ × ℚ :=
  ((cur.zip prevF).enum).foldl motionAccum (0, 0, 0)

/-- `targetX = 100 - (rawAvgX / GRID_X * 100)`, `targetY = rawAvgY / GRID_Y * 100`:
conversion of the raw motion centroid from grid coordinates into percentage
game coordinates, mirroring the horizontal axis because the on-screen video
is mirrored. -/
def targetOfCentroid (rawAvgX rawAvgY : ℚ) : Point :=
  ⟨100 - rawAvgX / (GRID_X : ℚ) * 100, rawAvgY / (GRID_Y : ℚ) * 100⟩

/-- `lerpFactor = Math.min(0.15 + dist / 100, 0.6)` where `dist` is the
`Math.hypot` distance between the target and the current hand position. -/
def lerpFactor (dist : ℚ) : ℚ :=
  min (3 / 20 + dist / 100) (3 / 5)

/-- Hand-position update of lines 168–177: first detection snaps to the
target, afterwards an adaptive lerp. `hyp` abstracts `Math.hypot`. -/
def updateHand (hyp : ℚ → ℚ → ℚ) (cur : Option Point) (target : Point) : Point :=
  match cur with
  | none => target
  | some c =>
    let f := lerpFactor (hyp (target.x - c.x) (target.y - c.y))
    ⟨c.x + (target.x - c.x) * f, c.y + (target.y - c.y) * f⟩

/-- Section 2 of `gameLoop` (motion detection).  Input: the current
downsampled video frame (`none` when `videoElement` is absent or its
`readyState ≠ 4`), the previous frame buffer and the tracked hand position.
Output: the new previous-frame buffer, the new hand position, and whether
meaningful motion (`totalWeight > 2000`) was detected this tick. -/
def motionDetect (hyp : ℚ → ℚ → ℚ) (video : Option Frame) (prevF : Option Frame)
    (hand : Option Point) : Option Frame × Option Point × Bool :=
  match video with
  | none => (prevF, hand, false)
  | some frame =>
    let s := match prevF with
      | none => ((0 : ℚ), (0 : ℚ), (0 : ℚ))
      | some pf => motionSums pf frame
    if (2000 : ℚ) < s.2.2 then
      let target := targetOfCentroid (s.1 / s.2.2) (s.2.1 / s.2.2)
      (some frame, some (updateHand hyp hand target), true)
    else
      (some frame, hand, false)

/-- Per-tick movement (lines 193–198): full-speed fall while falling,
one-tenth-speed drift while sliced; `x` is never touched. -/
def moveObject (o : GameObject) : GameObject :=
  if o.isSliced then { o with y := o.y + o.velocity * (1 / 10) }
  else { o with y := o.y + o.velocity }

/-- `Math.sqrt(dx*dx + dy*dy*0.6) < COLLISION_DISTANCE`, embedded in the
equivalent squared form `dx*dx + dy*dy*0.6 < COLLISION_DISTANCE²` (square
roots of nonnegative reals respect `<` against the exact square `12² = 144`). -/
def collides (o : GameObject) (h : Point) : Bool :=
  let dx := o.x - h.x
  let dy := o.y - h.y
  decide (dx * dx + dy * dy * (3 / 5) < COLLISION_DISTANCE * COLLISION_DISTANCE)

/-- Per-object body of the section-3 `forEach`: move, then (for unsliced
objects, when a tracked hand exists) test the collision and on a hit mark
the object sliced at wall-clock `now` and emit the signed score delta
(`+1` fruit, `-3` bomb). -/
def updateObject (now : ℤ) (hand : Option Point) (o : GameObject) :
    GameObject × Option ℤ :=
  let m := moveObject o
  match hand with
  | none => (m, none)
  | some h =>
    if !m.isSliced && collides m h then
      ({ m with isSliced := true, slicedAt := some now },
        some (if m.type = ObjType.fruit then 1 else -3))
    else
      (m, none)

/-- Retirement filter of lines 225–230.  `isAnimating` reproduces the JS
truthiness test `obj.slicedAt && (now - obj.slicedAt < 800)`: an absent
`slicedAt`, or the (unreachable) timestamp `0`, is falsy. -/
def objectRetained (now : ℤ) (o : GameObject) : Bool :=
  let isOnScreen := decide (o.y < 110)
  let isAlive := !o.isSliced
  let isAnimating := o.isSliced &&
    (match o.slicedAt with
     | some t => decide (t ≠ 0) && decide (now - t < 800)
     | none => false)
  isOnScreen && (isAlive || isAnimating)

/-- `createParticles`: `count` particles at `(x, y)` with small random
outward velocities.  `rng` is the `Math.random()` oracle, consumed
positionally. -/
def createParticles (rng : ℕ → ℚ) (x y : ℚ) (color : String) (count : ℕ) :
    List Particle :=
  (List.range count).map fun i =>
    { id := rng (3 * i), x := x, y := y,
      vx := (rng (3 * i + 1) - 1 / 2) * (3 / 2),
      vy := (rng (3 * i + 2) - 1 / 2) * (3 / 2),
      life := 1, color := color }

/-- Particle aging of section 4: integrate position, decay life by `0.05`. -/
def ageParticle (p : Particle) : Particle :=
  { p with x := p.x + p.vx, y := p.y + p.vy, life := p.life - 1 / 20 }

/-- The floating text pushed by `addFloatingText` for a slice on object `o`
with score delta `d` (its id is `Date.now() + Math.random()`). -/
def mkFloatingText (now : ℤ) (rng : ℕ → ℚ) (o : GameObject) (d : ℤ) : FloatingText :=
  { id := (now : ℚ) + rng 0, x := o.x, y := o.y,
    text := if d = 1 then "+1" else "-3",
    color := if d = 1 then "text-green-400" else "text-red-500" }

/-- The burst of particles created for a slice on (already moved) object
`o`: 12 yellow for fruit, 15 red for a bomb. -/
def sliceParticles (rng : ℕ → ℚ) (o : GameObject) : List Particle :=
  if o.type = ObjType.fruit then createParticles rng o.x o.y "yellow" 12
  else createParticles rng o.x o.y "red" 15

/-- All per-tick inputs of one `gameLoop` call that come from outside the
component state: the `requestAnimationFrame` timestamp, `Date.now()`, the
current downsampled frame (`none` when the video element is absent or not
ready), and the tick's `Math.random()` draws. -/
structure TickInput where
  time : ℤ
  now : ℤ
  video : Option Frame
  isBombRand : Bool
  itemRand : Fin 5
  xRand : ℚ
  vRand : ℚ
  trailRand : Bool
  rng : ℕ → ℚ

/-- The mutable component state owned by the game loop: React state
(`objects`, `floatingTexts`) and the refs (`prevFrameRef`, `handPosRef`,
`particlesRef`, `lastSpawnTime`, `spawnedCount`). -/
structure GState where
  objects : List GameObject
  floatingTexts : List FloatingText
  particles : List Particle
  prevFrame : Option Frame
  handPos : Option Point
  lastSpawnTime : ℤ
  spawnedCount : ℕ

/-- The `GameObject` built at lines 92–100 from the tick's random draws. -/
def spawnNewObject (inp : TickInput) : GameObject :=
  let item := ITEMS.getD (if inp.isBombRand then 5 else inp.itemRand.val)
    (ObjType.fruit, "")
  { id := inp.time, type := item.1, emoji := item.2,
    x := 10 + inp.xRand * 80, y := -15,
    velocity := 3 / 10 + inp.vRand * (1 / 5),
    isSliced := false, slicedAt := none }

/-- Section 1 of `gameLoop` ("Max 5 per round"): spawn a new object iff
fewer than 5 objects have been spawned this session and more than 1200 ms
of tick time have passed since the last spawn. -/
def spawnStep (inp : TickInput) (s : GState) : GState :=
  if s.spawnedCount < 5 ∧ 1200 < inp.time - s.lastSpawnTime then
    { s with objects := s.objects ++ [spawnNewObject inp],
             lastSpawnTime := inp.time,
             spawnedCount := s.spawnedCount + 1 }
  else
    s

/-- One full call of `gameLoop` while `isActive`: spawning, motion
detection, object update with collision resolution, retirement filtering,
and particle bookkeeping, returning the new state together with the list
of score deltas passed to `onScoreUpdate` during the tick. -/
def gameLoop (hyp : ℚ → ℚ → ℚ) (inp : TickInput) (s : GState) : GState × List ℤ :=
  let s1 := spawnStep inp s
  let md := motionDetect hyp inp.video s1.prevFrame s1.handPos
  let trailParts :=
    if md.2.2 && inp.trailRand then
      match md.2.1 with
      | some h => createParticles inp.rng h.x h.y "#00ffff" 1
      | none => []
    else []
  let pairs := s1.objects.map (updateObject inp.now md.2.1)
  let deltas := pairs.filterMap Prod.snd
  let newTexts := pairs.filterMap fun pr =>
    pr.2.map fun d => mkFloatingText inp.now inp.rng pr.1 d
  let newParts := (pairs.filterMap fun pr =>
    pr.2.map fun _ => sliceParticles inp.rng pr.1).flatten
  let objs2 := (pairs.map Prod.fst).filter (objectRetained inp.now)
  let aged := ((s1.particles ++ trailParts ++ newParts).map ageParticle).filter
    fun p => decide (0 < p.life)
  ({ s1 with objects := objs2,
             floatingTexts := s1.floatingTexts ++ newTexts,
             particles := aged,
             prevFrame := md.1,
             handPos := md.2.1 }, deltas)

/-- Re-activation reset (lines 333–337 of the `isActive` effect): zero the
spawn counter, empty the object list, and forget the tracked hand.  Nothing
else is touched. -/
def enterActive (s : GState) : GState :=
  { s with spawnedCount := 0, objects := [], handPos := none }

/-- Iterated session: fold `gameLoop` over a list of tick inputs. -/
def runTicks (hyp : ℚ → ℚ → ℚ) (s : GState) (inputs : List TickInput) : GState :=
  inputs.foldl (fun st i => (gameLoop hyp i st).1) s

/-- Count of currently-Falling (not yet sliced) live objects. -/
def fallingCount (s : GState) : ℕ :=
  (s.objects.filter fun o => !o.isSliced).length

/-! ### Spec-side definitions

The spec (§4.3, and claim C1) describes a grid-neighborhood collision
strategy.  The following two definitions follow the spec's words, not the
source; they exist solely to be compared with the behaviour of the code
above. -/

/-- Spec-side motion grid (spec §3): cell `(gx, gy)` is set iff the summed
RGB delta of that downsampled pixel between the previous and current frame
exceeds the threshold; out-of-range cells are unset (spec §4.3 numeric/edge
policy). -/
def specMotionGrid (pf cur : Frame) (gx gy : ℤ) : Bool :=
  if 0 ≤ gx ∧ gx < (GRID_X : ℤ) ∧ 0 ≤ gy ∧ gy < (GRID_Y : ℤ) then
    match cur.get? (gy.toNat * GRID_X + gx.toNat),
          pf.get? (gy.toNat * GRID_X + gx.toNat) with
    | some p, some q => decide (MOTION_THRESHOLD < pixelDiff p q)
    | _, _ => false
  else false

/-- Spec-side collision test claimed by C1: map the object's game-space
position with `gridX = floor((1 - x/100)·W)`, `gridY = floor(y/100·H)` and
register a collision iff a motion hit lies in the mapped cell's 3×3
neighborhood. -/
def specGridCollision (grid : ℤ → ℤ → Bool) (x y : ℚ) : Bool :=
  let gx := ⌊(1 - x / 100) * (GRID_X : ℚ)⌋
  let gy := ⌊y / 100 * (GRID_Y : ℚ)⌋
  ([-1, 0, 1] : List ℤ).any fun dx =>
    ([-1, 0, 1] : List ℤ).any fun dy => grid (gx + dx) (gy + dy)

/-! ### Helper lemmas -/

/-- Moving never touches `x`, the sliced flag, the kind, or `slicedAt`. -/
theorem moveObject_fields (o : GameObject) :
    (moveObject o).x = o.x ∧ (moveObject o).isSliced = o.isSliced ∧
    (moveObject o).type = o.type ∧ (moveObject o).slicedAt = o.slicedAt := by
  unfold moveObject
  split <;> simp

/-- A sliced object is never collision-tested: its update emits nothing and
leaves it sliced. -/
theorem updateObject_sliced (now : ℤ) (hand : Option Point) (o : GameObject)
    (hs : o.isSliced = true) :
    (updateObject now hand o).1.isSliced = true ∧ (updateObject now hand o).2 = none := by
  unfold updateObject moveObject
  cases hand <;> simp [hs]

/-- Any emitted score delta is `+1` on a fruit and `-3` on a bomb. -/
theorem updateObject_delta (now : ℤ) (hand : Option Point) (o : GameObject) :
    (updateObject now hand o).2 = none ∨
    (updateObject now hand o).2 = some (if o.type = ObjType.fruit then 1 else -3) := by
  unfold updateObject
  cases hand with
  | none => simp
  | some h =>
    by_cases hc : (!(moveObject o).isSliced && collides (moveObject o) h) = true
    · simp [hc, (moveObject_fields o).2.2.1]
    · simp [hc]

/-- The spawn counter after a full tick is the spawn counter after the
spawn phase. -/
theorem gameLoop_spawnedCount (hyp : ℚ → ℚ → ℚ) (inp : TickInput) (s : GState) :
    (gameLoop hyp inp s).1.spawnedCount = (spawnStep inp s).spawnedCount := by
  unfold gameLoop
  simp

/-- The tick never adds objects outside the spawn phase. -/
theorem gameLoop_objects_length (hyp : ℚ → ℚ → ℚ) (inp : TickInput) (s : GState) :
    ((gameLoop hyp inp s).1.objects).length ≤ ((spawnStep inp s).objects).length := by
  unfold gameLoop
  simp only
  refine le_trans (List.length_filter_le _ _) ?_
  simp

/-! ### Claim theorems -/

/-- C3 (counterexample): entering Active does not clear every owned
collection.  A prior-session state with a live particle, a floating text, a
stored previous frame and a nonzero spawn timer keeps all four after
re-activation. -/
def c3S : GState :=
  { objects := [],
    floatingTexts := [{ id := 1, x := 2, y := 3, text := "+1", color := "text-green-400" }],
    particles := [{ id := 1, x := 5, y := 5, vx := 0, vy := 0, life := 1, color := "yellow" }],
    prevFrame := some [⟨9, 9, 9⟩],
    handPos := some ⟨1, 2⟩,
    lastSpawnTime := 777,
    spawnedCount := 4 }

/-- C3 is false on the code: re-activation leaves the particle list, the
floating-text list, the previous-frame buffer and the spawn timer of the
prior session in place. -/
theorem C3_counterexample :
    (enterActive c3S).particles ≠ [] ∧
    (enterActive c3S).floatingTexts ≠ [] ∧
    (enterActive c3S).prevFrame ≠ none ∧
    (enterActive c3S).lastSpawnTime = 777 := by
  refine ⟨?_, ?_, ?_, rfl⟩ <;> simp [enterActive, c3S]

/-- C3 (amended): entering Active resets exactly the object list, the
spawn counter and the tracked hand position; the particle list, the
floating-text list, the previous-frame differencing buffer and the spawn
timer are carried over unchanged from the prior session. -/
theorem C3_amended (s : GState) :
    (enterActive s).objects = [] ∧
    (enterActive s).spawnedCount = 0 ∧
    (enterActive s).handPos = none ∧
    (enterActive s).particles = s.particles ∧
    (enterActive s).floatingTexts = s.floatingTexts ∧
    (enterActive s).prevFrame = s.prevFrame ∧
    (enterActive s).lastSpawnTime = s.lastSpawnTime := by
  unfold enterActive
  simp

/-- C4 (counterexample): a sliced object at `y = 115` whose 800 ms
animation window has not elapsed (`now - slicedAt = 100`) is nonetheless
removed by the retirement filter, so "a Sliced object is removed exactly
when its 800ms window elapses, never before" fails on the code. -/
def c4Obj : GameObject :=
  { id := 1, type := ObjType.fruit, emoji := "🍎", x := 50, y := 115,
    velocity := 1, isSliced := true, slicedAt := some 1000 }

/-- C4 is false on the code: `c4Obj` is dropped at `now = 1100` although it
is Sliced with only 100 ms of its window elapsed, and it is not a Falling
object at `y ≥ 110`. -/
theorem C4_counterexample :
    objectRetained 1100 c4Obj = false ∧
    c4Obj.isSliced = true ∧
    (1100 : ℤ) - 1000 < 800 ∧
    ¬(c4Obj.isSliced = false ∧ (110 : ℚ) ≤ c4Obj.y) := by
  refine ⟨?_, rfl, by norm_num, ?_⟩
  · simp [objectRetained, c4Obj]
    norm_num
  · intro hc
    simp [c4Obj] at hc

/-- C4 (amended): after the per-tick update a Falling object is removed iff
`y ≥ 110`, and a Sliced object (with its recorded positive `slicedAt`) is
removed iff `y ≥ 110` or its 800 ms window has elapsed — off-screen removal
applies to sliced objects too. -/
theorem C4_amended (now t : ℤ) (o : GameObject) (ht : 0 < t) :
    (objectRetained now { o with isSliced := false } = false ↔ 110 ≤ o.y) ∧
    (objectRetained now { o with isSliced := true, slicedAt := some t } = false ↔
      (110 ≤ o.y ∨ 800 ≤ now - t)) := by
  constructor
  · unfold objectRetained
    simp [not_lt]
  · unfold objectRetained
    have ht0 : t ≠ 0 := by omega
    simp [ht0]
    constructor
    · intro h
      by_cases hy : o.y < 110
      · exact Or.inr (h hy)
      · exact Or.inl (not_lt.mp hy)
    · intro h hy
      rcases h with h | h
      · exact absurd hy (not_lt.mpr h)
      · exact h

/-- Witness for `C4_amended` at `now = 1900`, `t = 1000`, a fruit at
`y = 50`: the sliced copy is removed because its window elapsed. -/
theorem C4_amended_witness :
    objectRetained 1900
      { id := 1, type := ObjType.fruit, emoji := "🍎", x := 50, y := 50,
        velocity := 1, isSliced := true, slicedAt := some 1000 } = false := by
  have h := (C4_amended 1900 1000
    { id := 1, type := ObjType.fruit, emoji := "🍎", x := 50, y := 50,
      velocity := 1, isSliced := false, slicedAt := none } (by norm_num)).2
  exact h.mpr (Or.inr (by norm_num))

/-- C5: the Falling→Sliced transition is irreversible.  A sliced object is
never collision-tested again: its per-tick update emits no score delta, and
along any sequence of later ticks (arbitrary wall clocks and hand
positions) it stays sliced and never emits again. -/
theorem C5_sliced_terminal (now : ℤ) (hand : Option Point) (o : GameObject)
    (steps : List (ℤ × Option Point)) :
    (updateObject now hand { o with isSliced := true }).2 = none ∧
    (updateObject now hand { o with isSliced := true }).1.isSliced = true ∧
    (steps.foldl (fun ob st => (updateObject st.1 st.2 ob).1)
      { o with isSliced := true }).isSliced = true ∧
    (steps.map fun st => (updateObject st.1 st.2
      (steps.foldl (fun ob pr => (updateObject pr.1 pr.2 ob).1)
        { o with isSliced := true })).2).all (· = none) = true := by
  have hbase : ({ o with isSliced := true } : GameObject).isSliced = true := rfl
  refine ⟨(updateObject_sliced now hand _ hbase).2,
          (updateObject_sliced now hand _ hbase).1, ?_, ?_⟩
  · have : ∀ (l : List (ℤ × Option Point)) (ob : GameObject), ob.isSliced = true →
        (l.foldl (fun ob st => (updateObject st.1 st.2 ob).1) ob).isSliced = true := by
      intro l
      induction l with
      | nil => intro ob hob; simpa using hob
      | cons st rest ih =>
        intro ob hob
        exact ih _ (updateObject_sliced st.1 st.2 ob hob).1
    exact this steps _ hbase
  · have hfold : (steps.foldl (fun ob pr => (updateObject pr.1 pr.2 ob).1)
        { o with isSliced := true }).isSliced = true := by
      have : ∀ (l : List (ℤ × Option Point)) (ob : GameObject), ob.isSliced = true →
          (l.foldl (fun ob st => (updateObject st.1 st.2 ob).1) ob).isSliced = true := by
        intro l
        induction l with
        | nil => intro ob hob; simpa using hob
        | cons st rest ih =>
          intro ob hob
          exact ih _ (updateObject_sliced st.1 st.2 ob hob).1
      exact this steps _ hbase
    simp only [List.all_eq_true]
    intro d hd
    simp only [List.mem_map] at hd
    obtain ⟨st, _, hst⟩ := hd
    have := (updateObject_sliced st.1 st.2 _ hfold).2
    simp only [← hst, this]
    simp

/-- C2 (counterexample): a session state whose five spawned objects have
all been retired.  The Falling count is 0 (below the cap) and far more than
the spawn interval has elapsed, yet the tick spawns nothing, so "once
previously spawned objects have been retired ... spawning resumes" fails on
the code: the `spawnedCount` gate counts total spawns per session, not
currently-Falling objects. -/
def c2S : GState :=
  { objects := [], floatingTexts := [], particles := [],
    prevFrame := none, handPos := none,
    lastSpawnTime := 0, spawnedCount := 5 }

/-- Tick input for `C2_counterexample`: 2000 ms of tick time, no video. -/
def c2Inp : TickInput :=
  { time := 2000, now := 2000, video := none, isBombRand := false,
    itemRand := 0, xRand := 0, vRand := 0, trailRand := false,
    rng := fun _ => 0 }

/-- C2 is false on the code: both claimed spawn conditions hold (elapsed
time 2000 > 1200 and Falling count 0 < 5), yet no object is spawned. -/
theorem C2_counterexample :
    fallingCount c2S < 5 ∧
    (1200 : ℤ) < c2Inp.time - c2S.lastSpawnTime ∧
    (gameLoop (fun _ _ => 0) c2Inp c2S).1.objects = [] ∧
    (gameLoop (fun _ _ => 0) c2Inp c2S).1.spawnedCount = c2S.spawnedCount := by
  refine ⟨by simp [fallingCount, c2S], by norm_num [c2Inp, c2S], ?_, ?_⟩
  · simp [gameLoop, spawnStep, motionDetect, c2Inp, c2S]
  · simp [gameLoop_spawnedCount, spawnStep, c2Inp, c2S]

/-- C2 (amended): on every tick a new object is spawned iff (a) more than
the fixed 1200 ms interval of tick time has elapsed since the last spawn
and (b) the total number of objects spawned this session is below the fixed
cap of 5; since that counter is never decremented, spawning does not resume
when previously spawned objects are retired. -/
theorem C2_amended (hyp : ℚ → ℚ → ℚ) (inp : TickInput) (s : GState) :
    ((gameLoop hyp inp s).1.spawnedCount = s.spawnedCount + 1 ↔
      (s.spawnedCount < 5 ∧ 1200 < inp.time - s.lastSpawnTime)) ∧
    ((gameLoop hyp inp s).1.spawnedCount = s.spawnedCount ∨
      (gameLoop hyp inp s).1.spawnedCount = s.spawnedCount + 1) := by
  rw [gameLoop_spawnedCount]
  unfold spawnStep
  constructor
  · split
    · rename_i hcond
      exact iff_of_true rfl hcond
    · rename_i hcond
      exact iff_of_false (by omega) hcond
  · split
    · exact Or.inr rfl
    · exact Or.inl rfl

/-- C6: every emitted score delta is `+1` for a fruit and `-3` for a bomb;
a Falling object in reach of the tracked hand emits exactly that delta, and
every delta a whole tick passes to `onScoreUpdate` is `+1` or `-3` (no
other code path emits). -/
theorem C6_score_deltas (now : ℤ) (h : Point) (o : GameObject)
    (hand : Option Point) (hyp : ℚ → ℚ → ℚ) (inp : TickInput) (s : GState) :
    ((updateObject now hand o).2 = none ∨
      (updateObject now hand o).2 = some (if o.type = ObjType.fruit then 1 else -3)) ∧
    ((updateObject now (some h) { o with isSliced := false }).2 =
      if collides (moveObject { o with isSliced := false }) h then
        some (if o.type = ObjType.fruit then 1 else -3)
      else none) ∧
    ((gameLoop hyp inp s).2.all fun d => decide (d = 1 ∨ d = -3)) = true := by
  refine ⟨updateObject_delta now hand o, ?_, ?_⟩
  · have hm : (moveObject { o with isSliced := false }).isSliced = false :=
      (moveObject_fields _).2.1
    have hty : (moveObject { o with isSliced := false }).type = o.type :=
      (moveObject_fields _).2.2.1
    unfold updateObject
    simp only [hm, Bool.not_false, Bool.true_and]
    by_cases hc : collides (moveObject { o with isSliced := false }) h = true
    · simp [hc, hty]
    · simp only [Bool.not_eq_true] at hc
      simp [hc]
  · simp only [List.all_eq_true]
    intro d hd
    unfold gameLoop at hd
    simp only [List.mem_filterMap] at hd
    obtain ⟨pr, hpr, hsnd⟩ := hd
    simp only [List.mem_map] at hpr
    obtain ⟨ob, _, hob⟩ := hpr
    rcases updateObject_delta inp.now
      (motionDetect hyp inp.video (spawnStep inp s).prevFrame
        (spawnStep inp s).handPos).2.1 ob with hnone | hsome
    · rw [← hob] at hsnd
      rw [hnone] at hsnd
      cases hsnd
    · rw [← hob] at hsnd
      rw [hsome] at hsnd
      have : d = if ob.type = ObjType.fruit then 1 else -3 := by
        injection hsnd  with h1
        exact h1.symm
      rcases ob.type with _ | _ <;> simp [this]

/-- Witness for `C6_score_deltas`: a fruit Falling at the tracked hand's
exact position is sliced and emits `+1` as the tick's only score delta. -/
theorem C6_score_deltas_witness :
    (updateObject 1000 (some ⟨50, 50⟩)
      { id := 1, type := ObjType.fruit, emoji := "🍎", x := 50, y := 50,
        velocity := 3 / 10, isSliced := false, slicedAt := none }).2 = some 1 := by
  have h := (C6_score_deltas 1000 ⟨50, 50⟩
    { id := 1, type := ObjType.fruit, emoji := "🍎", x := 50, y := 50,
      velocity := 3 / 10, isSliced := false, slicedAt := none }
    none (fun _ _ => 0)
    { time := 0, now := 0, video := none, isBombRand := false, itemRand := 0,
      xRand := 0, vRand := 0, trailRand := false, rng := fun _ => 0 }
    { objects := [], floatingTexts := [], particles := [], prevFrame := none,
      handPos := none, lastSpawnTime := 0, spawnedCount := 0 }).2.1
  rw [h]
  norm_num [collides, moveObject, COLLISION_DISTANCE]

/-- C8: when the video frame is missing/unready, the whole motion block is
skipped (previous frame and hand position untouched); on the first
processed tick (no previous frame) no motion is reported and the hand is
untouched, while the frame is stored for the next tick.  Lifted to the full
tick: a video-less tick leaves both the hand position and the
previous-frame buffer of the state unchanged. -/
theorem C8_skip_motion (hyp : ℚ → ℚ → ℚ) (f : Frame) (pf : Option Frame)
    (hand : Option Point) (inp : TickInput) (s : GState) :
    motionDetect hyp none pf hand = (pf, hand, false) ∧
    motionDetect hyp (some f) none hand = (some f, hand, false) ∧
    (gameLoop hyp { inp with video := none } s).1.handPos = s.handPos ∧
    (gameLoop hyp { inp with video := none } s).1.prevFrame = s.prevFrame := by
  refine ⟨rfl, ?_, ?_, ?_⟩
  · simp only [motionDetect]
    rw [if_neg (by norm_num)]
  · unfold gameLoop
    simp only
    unfold spawnStep
    split <;> simp [motionDetect]
  · unfold gameLoop
    simp only
    unfold spawnStep
    split <;> simp [motionDetect]

/-- The spawn-cap invariant: live objects never outnumber the session's
spawn counter, which never exceeds 5. -/
def SpawnInv (s : GState) : Prop :=
  s.objects.length ≤ s.spawnedCount ∧ s.spawnedCount ≤ 5

/-- `SpawnInv` is preserved by every tick. -/
theorem spawnInv_gameLoop (hyp : ℚ → ℚ → ℚ) (inp : TickInput) (s : GState)
    (hs : SpawnInv s) : SpawnInv ((gameLoop hyp inp s).1) := by
  obtain ⟨h1, h2⟩ := hs
  have hcount := gameLoop_spawnedCount hyp inp s
  have hlen := gameLoop_objects_length hyp inp s
  constructor
  · refine le_trans hlen ?_
    rw [hcount]
    unfold spawnStep
    split
    · rename_i hc
      simp
      omega
    · exact h1
  · rw [hcount]
    unfold spawnStep
    split
    · rename_i hc
      simp
      omega
    · exact h2

/-- C7: for any sequence of ticks in one active session, the number of
simultaneously Falling objects never exceeds the cap of 5. -/
theorem C7_spawn_cap (hyp : ℚ → ℚ → ℚ) (s0 : GState) (inputs : List TickInput) :
    fallingCount (runTicks hyp (enterActive s0) inputs) ≤ 5 := by
  have hbase : SpawnInv (enterActive s0) := by
    constructor <;> simp [enterActive]
  have hrun : ∀ (l : List TickInput) (s : GState), SpawnInv s →
      SpawnInv (runTicks hyp s l) := by
    intro l
    induction l with
    | nil => intro s hs; simpa [runTicks] using hs
    | cons i rest ih =>
      intro s hs
      have : runTicks hyp s (i :: rest) = runTicks hyp ((gameLoop hyp i s).1) rest := by
        simp [runTicks]
      rw [this]
      exact ih _ (spawnInv_gameLoop hyp i s hs)
  have hinv := hrun inputs _ hbase
  refine le_trans ?_ (le_trans hinv.1 hinv.2)
  unfold fallingCount
  exact List.length_filter_le _ _

/-- C9: each tick advances an object by exactly `velocity` while Falling
and `velocity · 0.1` while Sliced, and never changes `x` — including when
the same tick's collision test slices the object. -/
theorem C9_movement (now : ℤ) (hand : Option Point) (o : GameObject) :
    (updateObject now hand o).1.x = o.x ∧
    (updateObject now hand o).1.y =
      o.y + (if o.isSliced then o.velocity * (1 / 10) else o.velocity) := by
  unfold updateObject moveObject
  cases hand <;> by_cases hs : o.isSliced <;> simp [hs] <;> split <;> simp

/-- A Falling fruit lying at the stale tracked hand position, used by
`C10_stale_hand`: the tick that slices it receives no video frame at all. -/
def staleObj : GameObject :=
  { id := 7, type := ObjType.fruit, emoji := "🍉", x := 50, y := 50,
    velocity := 3 / 10, isSliced := false, slicedAt := none }

/-- Session state for `C10_stale_hand`: the hand position is a leftover
from an earlier tick, and no frame will arrive this tick. -/
def staleS : GState :=
  { objects := [staleObj], floatingTexts := [], particles := [],
    prevFrame := none, handPos := some ⟨50, 50⟩,
    lastSpawnTime := 0, spawnedCount := 5 }

/-- Tick input for `C10_stale_hand`: no video, so no motion whatsoever can
be detected on this tick. -/
def staleInp : TickInput :=
  { time := 100, now := 1000, video := none, isBombRand := false,
    itemRand := 0, xRand := 0, vRand := 0, trailRand := false,
    rng := fun _ => 0 }

/-- C10: the tracked hand position is written only on ticks whose total
weighted motion exceeds 2000 (otherwise it is retained unchanged), a tick
never clears it — only entering Active does — and a Falling object can be
sliced by the retained stale position on a tick in which no motion at all
was detected (here: a tick with no video frame still emits `+1` and slices
the object). -/
theorem C10_stale_hand (hyp : ℚ → ℚ → ℚ) (f pf : Frame) (hand : Option Point)
    (h : Point) (v pfo : Option Frame) (s : GState) :
    ((motionSums pf f).2.2 ≤ 2000 →
      motionDetect hyp (some f) (some pf) hand = (some f, hand, false)) ∧
    (∃ h2 : Point, (motionDetect hyp v pfo (some h)).2.1 = some h2) ∧
    (enterActive s).handPos = none ∧
    (gameLoop (fun _ _ => 0) staleInp staleS).2 = [1] ∧
    (gameLoop (fun _ _ => 0) staleInp staleS).1.objects.map
      (fun o => o.isSliced) = [true] := by
  refine ⟨?_, ?_, rfl, ?_, ?_⟩
  · intro hw
    simp only [motionDetect]
    rw [if_neg (not_lt.mpr hw)]
  · cases v with
    | none => exact ⟨h, rfl⟩
    | some fr =>
      simp only [motionDetect]
      split
      · exact ⟨_, rfl⟩
      · exact ⟨h, rfl⟩
  · norm_num [gameLoop, spawnStep, motionDetect, staleS, staleInp, staleObj,
      updateObject, moveObject, collides, COLLISION_DISTANCE]
    rfl
  · norm_num [gameLoop, spawnStep, motionDetect, staleS, staleInp, staleObj,
      updateObject, moveObject, collides, COLLISION_DISTANCE, objectRetained]

/-- Witness for `C10_stale_hand`: on empty frames the total weight is 0,
so the motion step of a tick leaves an empty hand untouched. -/
theorem C10_stale_hand_witness :
    motionDetect (fun _ _ => 0) (some ([] : Frame)) (some ([] : Frame)) none =
      (some ([] : Frame), none, false) :=
  (C10_stale_hand (fun _ _ => 0) [] [] none ⟨0, 0⟩ none none
    { objects := [], floatingTexts := [], particles := [], prevFrame := none,
      handPos := none, lastSpawnTime := 0, spawnedCount := 0 }).1
    (by norm_num [motionSums])

/-! ### C1: the frames of the counterexample -/

/-- An unchanged dark pixel. -/
def zeroPix : Pixel := ⟨0, 0, 0⟩

/-- A pixel whose channel delta against `zeroPix` is 26, one over the
motion threshold. -/
def hotPix : Pixel := ⟨26, 0, 0⟩

/-- Previous frame for the C1 counterexample: entirely dark. -/
def prevF0 : Frame := List.replicate 3072 zeroPix

/-- Current frame for the C1 counterexample: dark except one just-above-
threshold pixel at grid cell `(32, 24)` (row-major index 24·64+32 = 1568). -/
def curF0 : Frame :=
  List.replicate 1568 zeroPix ++ hotPix :: List.replicate 1503 zeroPix

/-- An unchanged pixel contributes nothing to the centroid sums. -/
theorem motionAccum_zero (acc : ℚ × ℚ × ℚ) (k : ℕ) :
    motionAccum acc (k, zeroPix, zeroPix) = acc := by
  simp [motionAccum, pixelDiff, zeroPix, MOTION_THRESHOLD]

/-- Folding the diff loop over any run of unchanged pixels is the identity. -/
theorem foldl_motionAccum_replicate (n : ℕ) :
    ∀ (k : ℕ) (acc : ℚ × ℚ × ℚ),
      (List.enumFrom k (List.replicate n (zeroPix, zeroPix))).foldl motionAccum acc = acc := by
  induction n with
  | zero => intro k acc; rfl
  | succ m ih =>
    intro k acc
    rw [List.replicate_succ, List.enumFrom_cons, List.foldl_cons, motionAccum_zero]
    exact ih (k + 1) acc

/-- Zipping two equal-length replicates pairs them up pointwise. -/
theorem zip_replicate_self {α β : Type} (n : ℕ) (a : α) (b : β) :
    (List.replicate n a).zip (List.replicate n b) = List.replicate n (a, b) := by
  induction n with
  | zero => rfl
  | succ m ih => simp [List.replicate_succ, ih]

/-- The zipped C1 frames: 1568 unchanged pixels, the hot pixel, then 1503
unchanged pixels. -/
theorem curF0_zip_prevF0 :
    curF0.zip prevF0 = List.replicate 1568 (zeroPix, zeroPix) ++
      (hotPix, zeroPix) :: List.replicate 1503 (zeroPix, zeroPix) := by
  have h3072 : prevF0 =
      List.replicate 1568 zeroPix ++ List.replicate 1504 zeroPix := by
    rw [prevF0, ← List.replicate_add]
  have h1504 : List.replicate 1504 zeroPix = zeroPix :: List.replicate 1503 zeroPix := by
    rw [show (1504 : ℕ) = 1503 + 1 from rfl, List.replicate_succ]
  rw [curF0, h3072, List.zip_append (by rw [List.length_replicate]),
      zip_replicate_self, h1504, List.zip_cons_cons, zip_replicate_self]

/-- The centroid sums of the C1 frames: a single contribution of weight
`26 · handednessBias 32 = 91/2` at grid cell `(32, 24)`; in particular the
total weight `91/2` is far below the 2000 gate. -/
theorem motionSums_c1 :
    motionSums prevF0 curF0 = (32 * (91 / 2), 24 * (91 / 2), 91 / 2) := by
  rw [motionSums, curF0_zip_prevF0, List.enum_eq_enumFrom, List.enumFrom_append,
      List.foldl_append, foldl_motionAccum_replicate, List.length_replicate,
      List.enumFrom_cons, List.foldl_cons, foldl_motionAccum_replicate]
  norm_num [motionAccum, pixelDiff, hotPix, zeroPix, MOTION_THRESHOLD, GRID_X,
    handednessBias]

set_option maxRecDepth 40000 in
/-- On the C1 frames the motion step reports no meaningful motion
(`91/2 ≤ 2000`) and keeps the hand empty. -/
theorem motionDetect_c1 (hyp : ℚ → ℚ → ℚ) :
    motionDetect hyp (some curF0) (some prevF0) none = (some curF0, none, false) := by
  simp only [motionDetect, motionSums_c1]
  rw [if_neg (by norm_num)]

/-- The Falling fruit of the C1 counterexample, sitting exactly on the
game-space image of grid cell `(32, 24)`. -/
def c1Obj : GameObject :=
  { id := 3, type := ObjType.fruit, emoji := "🍎", x := 50, y := 50,
    velocity := 2 / 5, isSliced := false, slicedAt := none }

/-- Session state for the C1 counterexample. -/
def c1S : GState :=
  { objects := [c1Obj], floatingTexts := [], particles := [],
    prevFrame := some prevF0, handPos := none,
    lastSpawnTime := 0, spawnedCount := 5 }

/-- Tick input for the C1 counterexample: the current frame is `curF0`. -/
def c1Inp : TickInput :=
  { time := 100, now := 1000, video := some curF0, isBombRand := false,
    itemRand := 0, xRand := 0, vRand := 0, trailRand := false,
    rng := fun _ => 0 }

set_option maxRecDepth 40000 in
/-- C1 is false on the code: at its post-move position `(50, 50.4)` the
object maps (per the claim's formulas) to grid cell `(32, 24)`, whose 3×3
neighborhood does contain a motion hit, yet the tick registers no
collision and emits no score delta — the code aggregates motion into a
single weighted centroid gated at total weight 2000 instead of testing the
grid neighborhood. -/
theorem C1_counterexample :
    specGridCollision (specMotionGrid prevF0 curF0) 50 (50 + 2 / 5) = true ∧
    (gameLoop (fun _ _ => 0) c1Inp c1S).1.objects.map (fun o => o.isSliced) = [false] ∧
    (gameLoop (fun _ _ => 0) c1Inp c1S).2 = [] := by
  refine ⟨?_, ?_, ?_⟩
  · have hgx : ⌊(1 - (50 : ℚ) / 100) * ((GRID_X : ℕ) : ℚ)⌋ = 32 := by
      norm_num [GRID_X]
    have hgy : ⌊((50 : ℚ) + 2 / 5) / 100 * ((GRID_Y : ℕ) : ℚ)⌋ = 24 := by
      norm_num [GRID_Y]
    have hcell : specMotionGrid prevF0 curF0 32 24 = true := by
      unfold specMotionGrid
      rw [if_pos (by norm_num [GRID_X, GRID_Y])]
      have hidx : (24 : ℤ).toNat * GRID_X + (32 : ℤ).toNat = 1568 := by
        decide
      rw [hidx]
      have hcur : curF0.get? 1568 = some hotPix := by
        rw [curF0, List.get?_append_right (by rw [List.length_replicate]),
            List.length_replicate]
        norm_num
      have hprev : prevF0.get? 1568 = some zeroPix := by
        rw [prevF0, List.get?_eq_getElem?, List.getElem?_replicate]
        norm_num
      rw [hcur, hprev]
      simp [pixelDiff, hotPix, zeroPix, MOTION_THRESHOLD]
    unfold specGridCollision
    simp only [List.any_eq_true]
    refine ⟨0, by norm_num, 0, by norm_num, ?_⟩
    rw [hgx, hgy]
    simpa using hcell
  · norm_num [gameLoop, spawnStep, c1S, c1Inp, motionDetect_c1, updateObject,
      moveObject, objectRetained, c1Obj]
  · norm_num [gameLoop, spawnStep, c1S, c1Inp, motionDetect_c1, updateObject,
      moveObject, c1Obj]

/-- C1 (amended): there is no per-object grid lookup.  The motion centroid
is converted to game space with the horizontal axis inverted
(`x = 100·(1 − rawX/W)`, so raw 0 ↦ 100 and raw W ↦ 0) and the vertical
axis direct (raw 0 ↦ 0, raw H ↦ 100), and a Falling object collides — at
its post-move position — iff a tracked hand position exists and
`dx² + 0.6·dy² < 144` against it; with no tracked hand no collision is
possible. -/
theorem C1_amended (rx ry : ℚ) (now : ℤ) (h : Point) (o : GameObject) :
    (targetOfCentroid rx ry).x = 100 * (1 - rx / (GRID_X : ℕ)) ∧
    (targetOfCentroid 0 ry).x = 100 ∧
    (targetOfCentroid ((GRID_X : ℕ) : ℚ) ry).x = 0 ∧
    (targetOfCentroid rx 0).y = 0 ∧
    (targetOfCentroid rx ((GRID_Y : ℕ) : ℚ)).y = 100 ∧
    ((updateObject now (some h) { o with isSliced := false }).1.isSliced = true ↔
      (o.x - h.x) * (o.x - h.x) +
        ((o.y + o.velocity) - h.y) * ((o.y + o.velocity) - h.y) * (3 / 5) < 144) ∧
    ((updateObject now none o).1.isSliced = o.isSliced ∧
      (updateObject now none o).2 = none) := by
  refine ⟨?_, ?_, ?_, ?_, ?_, ?_, ?_, ?_⟩
  · unfold targetOfCentroid
    ring
  · unfold targetOfCentroid
    norm_num
  · unfold targetOfCentroid
    norm_num [GRID_X]
  · unfold targetOfCentroid
    norm_num
  · unfold targetOfCentroid
    norm_num [GRID_Y]
  · have hmx : (moveObject { o with isSliced := false }).x = o.x := rfl
    have hmy : (moveObject { o with isSliced := false }).y = o.y + o.velocity := rfl
    have hCD : COLLISION_DISTANCE * COLLISION_DISTANCE = (144 : ℚ) := by
      norm_num [COLLISION_DISTANCE]
    unfold updateObject
    simp only [(moveObject_fields _).2.1, Bool.not_false, Bool.true_and]
    by_cases hc : collides (moveObject { o with isSliced := false }) h = true
    · rw [if_pos hc]
      simp only [collides, decide_eq_true_eq, hCD, hmx, hmy] at hc
      exact iff_of_true rfl hc
    · rw [if_neg hc]
      simp only [collides, decide_eq_true_eq, hCD, hmx, hmy] at hc
      refine iff_of_false ?_ hc
      simp [(moveObject_fields _).2.1]
  · exact (moveObject_fields o).2.1
  · rfl

end FruitGame
